import Mathlib

/-!
# Verification of the EV charging-station UDP client (udp_client.py)

A shallow embedding of the telemetry client in `src/trash/udp_client.py`:
packet classification and decoding (`_process_data`), the bounded
time-series store, three-phase waveform synthesis (`_generate_waveforms`),
and the windowed query layer (`filter_by_time_window`,
`get_parameter_history`, `get_waveform_data`, `get_power_data`), together
with theorems settling the specification claims about them.

Datagram payloads are modelled as `List Char` (the UTF-8 decoded text),
floating-point values as `ℚ` for the measured quantities and as `ℝ` for the
synthesized waveform samples (which involve `sin`, `sqrt`, `arccos`).
The bounded deques (`maxlen = history_length`) are lists with FIFO eviction.
-/

set_option maxHeartbeats 1000000

namespace EvCh

/-! ## Python string primitives, modelled on `List Char` -/

/-- Characters removed by Python's `str.strip()` (ASCII whitespace). -/
def py_is_space (c : Char) : Bool :=
  c == ' ' || c == '\t' || c == '\n' || c == '\r' || c == '\x0b' || c == '\x0c'

/-- Python `str.strip()`: remove leading and trailing whitespace. -/
def py_strip (s : List Char) : List Char :=
  ((s.dropWhile py_is_space).reverse.dropWhile py_is_space).reverse

/-- Python `str.startswith(pat)`. -/
def starts_with : List Char → List Char → Bool
  | _, [] => true
  | [], _ :: _ => false
  | c :: cs, p :: ps => c == p && starts_with cs ps

/-- Python `str.count(',')`. -/
def count_commas : List Char → ℕ
  | [] => 0
  | c :: rest => (if c = ',' then 1 else 0) + count_commas rest

/-- Python `str.split(',')`: split on every comma, keeping empty fields. -/
def split_commas : List Char → List (List Char)
  | [] => [[]]
  | c :: rest =>
    if c = ',' then [] :: split_commas rest
    else
      match split_commas rest with
      | [] => [[c]]
      | f :: fs => (c :: f) :: fs

/-- The literal tag that marks a parameter-echo message. -/
def param_tag : List Char := "PARAM".toList

/-! ## Numeric parsing (Python `float(...)` / `int(float(...))`) -/

/-- Accumulate a decimal digit string into a natural number. -/
def nat_of_digits (l : List Char) : ℕ :=
  l.foldl (fun n c => 10 * n + (c.toNat - 48)) 0

/-- Parse an unsigned decimal literal: digits with an optional fractional
part, requiring at least one digit overall (so "1", "1.", ".5", "0.5" parse
and "", ".", "abc" do not).  Models Python `float()` on plain decimal
notation; exponents, `inf` and `nan` are not modelled. -/
def parse_unsigned (cs : List Char) : Option ℚ :=
  let int_part := cs.takeWhile Char.isDigit
  let rest := cs.dropWhile Char.isDigit
  match rest with
  | [] => if int_part.isEmpty then none else some (nat_of_digits int_part : ℚ)
  | '.' :: frac =>
    if frac.all Char.isDigit && (!int_part.isEmpty || !frac.isEmpty) then
      some ((nat_of_digits int_part : ℚ) + (nat_of_digits frac : ℚ) / (10 : ℚ) ^ frac.length)
    else none
  | _ => none

/-- Python `float(s)`: strip surrounding whitespace, then an optional sign
followed by an unsigned decimal literal.  `none` models a `ValueError`. -/
def py_float (cs : List Char) : Option ℚ :=
  match py_strip cs with
  | '+' :: rest => parse_unsigned rest
  | '-' :: rest => (parse_unsigned rest).map (fun q => -q)
  | cs2 => parse_unsigned cs2

/-- Floor of a rational, computed with floor division. -/
def rat_floor (q : ℚ) : ℤ := Int.fdiv q.num q.den

/-- Python `int(...)` applied to a float: truncation toward zero. -/
def py_int (q : ℚ) : ℤ := if 0 ≤ q then rat_floor q else - rat_floor (-q)

/-- Status clamping from `_process_data`: `max(0, min(s, 3))`. -/
def clamp_status (s : ℤ) : ℤ := max 0 (min s 3)

/-- Round-half-to-even of a rational to an integer (the rounding mode of
`np.round`). -/
def round_half_even (q : ℚ) : ℤ :=
  let f : ℤ := rat_floor q
  let r : ℚ := q - (f : ℚ)
  if r < 1 / 2 then f
  else if 1 / 2 < r then f + 1
  else if f % 2 = 0 then f else f + 1

/-- Rounding to 3 decimal places, half to even, as `np.round(x, 3)`. -/
def round3 (q : ℚ) : ℚ := (round_half_even (q * 1000) : ℚ) / 1000

/-! ## Data model (`UDPClient.__init__`) -/

/-- The `latest_data` snapshot.  The constructor initializes ten keys to
`0.0`; the remaining eleven keys are first created by `_process_data` on the
first accepted sample, modelled as `Option` fields that start `none`. -/
structure LatestData where
  Grid_Voltage : ℚ := 0
  Grid_Current : ℚ := 0
  DCLink_Voltage : ℚ := 0
  ElectricVehicle_Voltage : ℚ := 0
  PhotoVoltaic_Voltage : ℚ := 0
  ElectricVehicle_Current : ℚ := 0
  PhotoVoltaic_Current : ℚ := 0
  PhotoVoltaic_Power : ℚ := 0
  ElectricVehicle_Power : ℚ := 0
  Battery_Power : ℚ := 0
  Grid_Power : Option ℚ := none
  Grid_Reactive_Power : Option ℚ := none
  Power_Factor : Option ℚ := none
  Frequency : Option ℚ := none
  THD : Option ℚ := none
  S1_Status : Option ℤ := none
  S2_Status : Option ℤ := none
  S3_Status : Option ℤ := none
  S4_Status : Option ℤ := none
  Battery_SoC : Option ℚ := none
  EV_SoC : Option ℚ := none
  deriving DecidableEq

/-- The seventeen per-parameter history deques of `data_history`. -/
structure DataHistory where
  Grid_Voltage : List ℚ := []
  Grid_Current : List ℚ := []
  DCLink_Voltage : List ℚ := []
  ElectricVehicle_Voltage : List ℚ := []
  PhotoVoltaic_Voltage : List ℚ := []
  ElectricVehicle_Current : List ℚ := []
  PhotoVoltaic_Current : List ℚ := []
  PhotoVoltaic_Power : List ℚ := []
  ElectricVehicle_Power : List ℚ := []
  Battery_Power : List ℚ := []
  Grid_Power : List ℚ := []
  Grid_Reactive_Power : List ℚ := []
  Power_Factor : List ℚ := []
  Frequency : List ℚ := []
  THD : List ℚ := []
  Battery_SoC : List ℚ := []
  EV_SoC : List ℚ := []
  deriving DecidableEq

/-- One entry of `waveform_data`: the three phase deques. -/
structure WaveformPhases where
  phaseA : List ℝ := []
  phaseB : List ℝ := []
  phaseC : List ℝ := []

/-- The mutable state of a `UDPClient` instance relevant to ingestion and
queries: the running flag, the history capacity, the latest-value snapshot,
the timestamp history, the per-parameter histories and the two waveform
history groups. -/
structure ClientState where
  is_running : Bool
  history_length : ℕ
  latest_data : LatestData
  time_history : List ℚ
  data_history : DataHistory
  waveform_Grid_Voltage : WaveformPhases
  waveform_Grid_Current : WaveformPhases

/-- State created by `UDPClient.__init__` for a given `history_length`
(default 1000): everything empty, not running. -/
def initial_state (history_length : ℕ) : ClientState :=
  { is_running := false
    history_length := history_length
    latest_data := {}
    time_history := []
    data_history := {}
    waveform_Grid_Voltage := {}
    waveform_Grid_Current := {} }

/-- Append to a `deque(maxlen := H)`: add at the right, evicting from the
left when the capacity is exceeded. -/
def append_bounded {α : Type} (H : ℕ) (l : List α) (x : α) : List α :=
  let l2 := l ++ [x]
  if H < l2.length then l2.drop (l2.length - H) else l2

/-- The grid frequency fallback `self.frequency = 50.0` set in `__init__`. -/
def client_frequency : ℚ := 50

/-! ## Packet classification and sample decoding (`_process_data`) -/

/-- Packet classes, in the order `_process_data` tests for them. -/
inductive PacketClass where
  | handshakeEcho
  | referenceResponse
  | malformed
  | sample
  deriving DecidableEq

/-- Classification applied to the trimmed payload text, mirroring the guard
sequence of `_process_data`: `PARAM` prefix, then fewer than 5 commas, then
a comma-separated field count different from 21, otherwise a sample
candidate. -/
def classify (data : List Char) : PacketClass :=
  let data_str := py_strip data
  if starts_with data_str param_tag then .handshakeEcho
  else if count_commas data_str < 5 then .referenceResponse
  else if (split_commas data_str).length ≠ 21 then .malformed
  else .sample

/-- One decoded sample record: the 21 fields of the CSV schema, with the
four status codes already clamped to [0,3]. -/
structure Sample where
  vd : ℚ
  id_val : ℚ
  vdc : ℚ
  vev : ℚ
  vpv : ℚ
  iev : ℚ
  ipv : ℚ
  ppv : ℚ
  pev : ℚ
  pbattery : ℚ
  pgrid : ℚ
  qgrid : ℚ
  power_factor : ℚ
  frequency : ℚ
  thd : ℚ
  s1 : ℤ
  s2 : ℤ
  s3 : ℤ
  s4 : ℤ
  soc_battery : ℚ
  soc_ev : ℚ
  deriving DecidableEq

/-- The inner parse block of `_process_data`: every field `values[i]` is
parsed with `float(...)` (positions 15-18 additionally truncated with
`int(...)` and clamped to [0,3]); the first `ValueError` rejects the whole
record, modelled by `List.mapM`, which fails iff some field fails. -/
def parse_sample (values : List (List Char)) : Option Sample :=
  match values.mapM py_float with
  | none => none
  | some fs =>
    some { vd := fs.getD 0 0, id_val := fs.getD 1 0, vdc := fs.getD 2 0,
           vev := fs.getD 3 0, vpv := fs.getD 4 0, iev := fs.getD 5 0,
           ipv := fs.getD 6 0, ppv := fs.getD 7 0, pev := fs.getD 8 0,
           pbattery := fs.getD 9 0, pgrid := fs.getD 10 0,
           qgrid := fs.getD 11 0, power_factor := fs.getD 12 0,
           frequency := fs.getD 13 0, thd := fs.getD 14 0,
           s1 := clamp_status (py_int (fs.getD 15 0)),
           s2 := clamp_status (py_int (fs.getD 16 0)),
           s3 := clamp_status (py_int (fs.getD 17 0)),
           s4 := clamp_status (py_int (fs.getD 18 0)),
           soc_battery := fs.getD 19 0, soc_ev := fs.getD 20 0 }

/-- The snapshot and history commit of `_process_data`: overwrite every
`latest_data` entry and append each value to its history deque. -/
def commit_sample (s : ClientState) (smp : Sample) : ClientState :=
  { s with
    latest_data :=
      { Grid_Voltage := smp.vd
        Grid_Current := smp.id_val
        DCLink_Voltage := smp.vdc
        ElectricVehicle_Voltage := smp.vev
        PhotoVoltaic_Voltage := smp.vpv
        ElectricVehicle_Current := smp.iev
        PhotoVoltaic_Current := smp.ipv
        PhotoVoltaic_Power := smp.ppv
        ElectricVehicle_Power := smp.pev
        Battery_Power := smp.pbattery
        Grid_Power := some smp.pgrid
        Grid_Reactive_Power := some smp.qgrid
        Power_Factor := some smp.power_factor
        Frequency := some smp.frequency
        THD := some smp.thd
        S1_Status := some smp.s1
        S2_Status := some smp.s2
        S3_Status := some smp.s3
        S4_Status := some smp.s4
        Battery_SoC := some smp.soc_battery
        EV_SoC := some smp.soc_ev }
    data_history :=
      { Grid_Voltage := append_bounded s.history_length s.data_history.Grid_Voltage smp.vd
        Grid_Current := append_bounded s.history_length s.data_history.Grid_Current smp.id_val
        DCLink_Voltage := append_bounded s.history_length s.data_history.DCLink_Voltage smp.vdc
        ElectricVehicle_Voltage := append_bounded s.history_length s.data_history.ElectricVehicle_Voltage smp.vev
        PhotoVoltaic_Voltage := append_bounded s.history_length s.data_history.PhotoVoltaic_Voltage smp.vpv
        ElectricVehicle_Current := append_bounded s.history_length s.data_history.ElectricVehicle_Current smp.iev
        PhotoVoltaic_Current := append_bounded s.history_length s.data_history.PhotoVoltaic_Current smp.ipv
        PhotoVoltaic_Power := append_bounded s.history_length s.data_history.PhotoVoltaic_Power smp.ppv
        ElectricVehicle_Power := append_bounded s.history_length s.data_history.ElectricVehicle_Power smp.pev
        Battery_Power := append_bounded s.history_length s.data_history.Battery_Power smp.pbattery
        Grid_Power := append_bounded s.history_length s.data_history.Grid_Power smp.pgrid
        Grid_Reactive_Power := append_bounded s.history_length s.data_history.Grid_Reactive_Power smp.qgrid
        Power_Factor := append_bounded s.history_length s.data_history.Power_Factor smp.power_factor
        Frequency := append_bounded s.history_length s.data_history.Frequency smp.frequency
        THD := append_bounded s.history_length s.data_history.THD smp.thd
        Battery_SoC := append_bounded s.history_length s.data_history.Battery_SoC smp.soc_battery
        EV_SoC := append_bounded s.history_length s.data_history.EV_SoC smp.soc_ev } }

/-! ## Waveform synthesis (`_generate_waveforms`) -/

/-- The phase shift `(2 * np.pi) / 3` set in `__init__`. -/
noncomputable def phase_shift : ℝ := 2 * Real.pi / 3

/-- The six local values computed by `_generate_waveforms` from the latest
frequency and power factor, the RMS voltage and current magnitudes, and the
elapsed timestamp. -/
structure WaveSix where
  voltage_a : ℝ
  voltage_b : ℝ
  voltage_c : ℝ
  current_a : ℝ
  current_b : ℝ
  current_c : ℝ

/-- The arithmetic core of `_generate_waveforms`: RMS-to-peak conversion by
`sqrt 2`, time-based angle `2π·f·t`, three voltage phases shifted by
`±2π/3`, power-factor angle `arccos(max(-1, min(1, pf)))` and three current
phases lagging by it. -/
noncomputable def generate_waveform_values (frequency power_factor : ℚ)
    (voltage_amplitude current_amplitude timestamp : ℚ) : WaveSix :=
  let voltage_peak : ℝ := (voltage_amplitude : ℝ) * Real.sqrt 2
  let current_peak : ℝ := (current_amplitude : ℝ) * Real.sqrt 2
  let angle : ℝ := 2 * Real.pi * (frequency : ℝ) * (timestamp : ℝ)
  let actual_pf : ℚ := max (-1) (min 1 power_factor)
  let power_factor_angle : ℝ := Real.arccos (actual_pf : ℝ)
  { voltage_a := voltage_peak * Real.sin angle
    voltage_b := voltage_peak * Real.sin (angle - phase_shift)
    voltage_c := voltage_peak * Real.sin (angle + phase_shift)
    current_a := current_peak * Real.sin (angle - power_factor_angle)
    current_b := current_peak * Real.sin (angle - phase_shift - power_factor_angle)
    current_c := current_peak * Real.sin (angle + phase_shift - power_factor_angle)
  }

/-- Model of `_generate_waveforms`: read the latest frequency (default
`self.frequency = 50`) and power factor (default `0.95`), compute the six
phase values and append each to its waveform history deque. -/
noncomputable def generate_waveforms (s : ClientState)
    (voltage_amplitude current_amplitude timestamp : ℚ) : ClientState :=
  let frequency : ℚ := s.latest_data.Frequency.getD client_frequency
  let power_factor : ℚ := s.latest_data.Power_Factor.getD (95 / 100)
  let w := generate_waveform_values frequency power_factor
    voltage_amplitude current_amplitude timestamp
  { s with
    waveform_Grid_Voltage :=
      { phaseA := append_bounded s.history_length s.waveform_Grid_Voltage.phaseA w.voltage_a
        phaseB := append_bounded s.history_length s.waveform_Grid_Voltage.phaseB w.voltage_b
        phaseC := append_bounded s.history_length s.waveform_Grid_Voltage.phaseC w.voltage_c }
    waveform_Grid_Current :=
      { phaseA := append_bounded s.history_length s.waveform_Grid_Current.phaseA w.current_a
        phaseB := append_bounded s.history_length s.waveform_Grid_Current.phaseB w.current_b
        phaseC := append_bounded s.history_length s.waveform_Grid_Current.phaseC w.current_c } }

/-- Model of `_process_data`: classify the trimmed payload; drop parameter echoes,
reference responses and malformed payloads without touching any state;
otherwise append the timestamp to `time_history` and then attempt the full
numeric parse, committing snapshot, histories and waveforms on success and
returning (with the timestamp already appended) on a parse failure. -/
noncomputable def process_data (s : ClientState) (data : List Char)
    (timestamp : ℚ) : ClientState :=
  let data_str := py_strip data
  if starts_with data_str param_tag then s
  else if count_commas data_str < 5 then s
  else
    let values := split_commas data_str
    if values.length ≠ 21 then s
    else
      let st := { s with
        time_history := append_bounded s.history_length s.time_history timestamp }
      match parse_sample values with
      | none => st
      | some smp => generate_waveforms (commit_sample st smp) smp.vd smp.id_val timestamp

/-- Model of `is_connected`: the running flag is set and the time history is
nonempty. -/
def is_connected (s : ClientState) : Bool :=
  s.is_running && decide (0 < s.time_history.length)

/-! ## Query layer -/

/-- Python slice `l[-n:]` preceded by `n = min(n_points, len(l))`.  Note the
Python quirk that `l[-0:]` is the whole list. -/
def py_slice_last {α : Type} (n : ℕ) (l : List α) : List α :=
  if n = 0 then l else l.drop (l.length - n)

/-- Model of `filter_by_time_window`: keep the points whose timestamp is at least
`latest - time_window`.  The variadic `*data_series` is modelled as a list
of series.  Mirrored branches: empty time data returns the inputs; the
defensive index check returns the inputs; an empty selection returns the
single latest point of each series (an empty series there would raise an
`IndexError`, absorbed by the surrounding `except` returning the inputs);
otherwise the selected points, with timestamps rounded to 3 decimals. -/
def filter_by_time_window {α : Type} (time_data : List ℚ)
    (data_series : List (List α)) (time_window : ℚ) : List ℚ × List (List α) :=
  if time_data.length = 0 then (time_data, data_series)
  else
    let latest_time : ℚ := time_data.getLast?.getD 0
    let cutoff_time : ℚ := latest_time - time_window
    let indices : List ℕ :=
      (List.range time_data.length).filter
        (fun i => decide (cutoff_time ≤ time_data[i]?.getD 0))
    if data_series.any (fun arr =>
        decide (0 < indices.length) && decide (arr.length ≤ indices.getLast?.getD 0)) then
      (time_data, data_series)
    else if indices.length = 0 then
      if data_series.any (fun arr => arr.isEmpty) then (time_data, data_series)
      else
        ([latest_time], data_series.map (fun arr => (arr.getLast?.map (fun x => [x])).getD []))
    else
      ((indices.filterMap (fun i => time_data[i]?)).map round3,
       data_series.map (fun arr => indices.filterMap (fun i => arr[i]?)))

/-- Key lookup in the `data_history` dictionary. -/
def data_history_lookup (dh : DataHistory) (parameter : String) : Option (List ℚ) :=
  if parameter = "Grid_Voltage" then some dh.Grid_Voltage
  else if parameter = "Grid_Current" then some dh.Grid_Current
  else if parameter = "DCLink_Voltage" then some dh.DCLink_Voltage
  else if parameter = "ElectricVehicle_Voltage" then some dh.ElectricVehicle_Voltage
  else if parameter = "PhotoVoltaic_Voltage" then some dh.PhotoVoltaic_Voltage
  else if parameter = "ElectricVehicle_Current" then some dh.ElectricVehicle_Current
  else if parameter = "PhotoVoltaic_Current" then some dh.PhotoVoltaic_Current
  else if parameter = "PhotoVoltaic_Power" then some dh.PhotoVoltaic_Power
  else if parameter = "ElectricVehicle_Power" then some dh.ElectricVehicle_Power
  else if parameter = "Battery_Power" then some dh.Battery_Power
  else if parameter = "Grid_Power" then some dh.Grid_Power
  else if parameter = "Grid_Reactive_Power" then some dh.Grid_Reactive_Power
  else if parameter = "Power_Factor" then some dh.Power_Factor
  else if parameter = "Frequency" then some dh.Frequency
  else if parameter = "THD" then some dh.THD
  else if parameter = "Battery_SoC" then some dh.Battery_SoC
  else if parameter = "EV_SoC" then some dh.EV_SoC
  else none

/-- Key lookup in the `waveform_data` dictionary. -/
def waveform_lookup (s : ClientState) (waveform_type : String) : Option WaveformPhases :=
  if waveform_type = "Grid_Voltage" then some s.waveform_Grid_Voltage
  else if waveform_type = "Grid_Current" then some s.waveform_Grid_Current
  else none

/-- Model of `get_parameter_history`: unknown parameter or empty time history give
empty results; a requested `time_window` goes straight to
`filter_by_time_window` (there is no insufficient-data fallback here);
otherwise `n_points` takes the most recent points, else the full history. -/
def get_parameter_history (s : ClientState) (parameter : String)
    (n_points : Option ℕ) (time_window : Option ℚ) : List ℚ × List ℚ :=
  match data_history_lookup s.data_history parameter with
  | none => ([], [])
  | some param_data =>
    let time_data := s.time_history
    if time_data.length = 0 then ([], [])
    else
      match time_window with
      | some w =>
        let r := filter_by_time_window time_data [param_data] w
        (r.1, r.2.headD [])
      | none =>
        match n_points with
        | some k =>
          let n := min k time_data.length
          (py_slice_last n time_data, py_slice_last n param_data)
        | none => (time_data, param_data)

/-- Model of `get_waveform_data`: unknown waveform type gives four empty arrays; if
any data exists but spans less than the requested window (or has fewer than
2 points) all of it is returned unfiltered; empty time history gives four
empty arrays; otherwise the window filter, else the `n_points` slice, else
everything. -/
def get_waveform_data (s : ClientState) (waveform_type : String)
    (n_points : Option ℕ) (time_window : Option ℚ) :
    List ℚ × List ℝ × List ℝ × List ℝ :=
  match waveform_lookup s waveform_type with
  | none => ([], [], [], [])
  | some ph =>
    let time_data := s.time_history
    if 0 < time_data.length then
      match time_window with
      | some w =>
        if time_data.length < 2 ∨ time_data.getLast?.getD 0 - time_data.headD 0 < w then
          (time_data, ph.phaseA, ph.phaseB, ph.phaseC)
        else
          let r := filter_by_time_window time_data [ph.phaseA, ph.phaseB, ph.phaseC] w
          (r.1, r.2.headD [], (r.2.drop 1).headD [], (r.2.drop 2).headD [])
      | none =>
        match n_points with
        | some k =>
          let n := min k time_data.length
          (py_slice_last n time_data, py_slice_last n ph.phaseA,
           py_slice_last n ph.phaseB, py_slice_last n ph.phaseC)
        | none => (time_data, ph.phaseA, ph.phaseB, ph.phaseC)
    else ([], [], [], [])

/-- Model of `get_power_data`: same shape as `get_waveform_data` over the four power
histories, except that an empty time history returns a single zero-valued
point for every output. -/
def get_power_data (s : ClientState) (n_points : Option ℕ)
    (time_window : Option ℚ) : List ℚ × List ℚ × List ℚ × List ℚ × List ℚ :=
  let time_data := s.time_history
  let grid_power := s.data_history.Grid_Power
  let pv_power := s.data_history.PhotoVoltaic_Power
  let ev_power := s.data_history.ElectricVehicle_Power
  let battery_power := s.data_history.Battery_Power
  if 0 < time_data.length then
    match time_window with
    | some w =>
      if time_data.length < 2 ∨ time_data.getLast?.getD 0 - time_data.headD 0 < w then
        (time_data, grid_power, pv_power, ev_power, battery_power)
      else
        let r := filter_by_time_window time_data
          [grid_power, pv_power, ev_power, battery_power] w
        (r.1, r.2.headD [], (r.2.drop 1).headD [], (r.2.drop 2).headD [],
         (r.2.drop 3).headD [])
    | none =>
      match n_points with
      | some k =>
        let n := min k time_data.length
        (py_slice_last n time_data, py_slice_last n grid_power,
         py_slice_last n pv_power, py_slice_last n ev_power,
         py_slice_last n battery_power)
      | none => (time_data, grid_power, pv_power, ev_power, battery_power)
  else ([0], [0], [0], [0], [0])

/-! ## Transport details modelled for claims about `__init__`, `start()` and
`_receive_data` -/

/-- From `UDPClient.__init__` (line 48): the constructor stores
`self.listen_port = 0` unconditionally, ignoring its `listen_port`
argument ("0 means the OS will assign an available port"). -/
def init_listen_port (_listen_port : ℕ) : ℕ := 0

/-- The port passed to `socket.bind(("0.0.0.0", self.listen_port))` in both
`start()` and `reconnect()`, as a function of the `listen_port` argument
given to the constructor. -/
def start_bind_port (configured_listen_port : ℕ) : ℕ :=
  init_listen_port configured_listen_port

/-- One execution of the transport-error branch of `_receive_data`
(`except Exception` around lines 229-239).  `error_count` is a local
variable of `_receive_data` that the function never assigns before the
branch's `error_count += 1`, so its incoming value is an `Option` that
starts as `none`; in Python, reading an unassigned local raises
`UnboundLocalError`, modelled as `Except.error`.  On success the result is
the new counter value and whether a reconnect was attempted (counter above
5 reconnects and resets). -/
def receive_error_branch (error_count : Option ℕ) : Except String (ℕ × Bool) :=
  match error_count with
  | none => .error "UnboundLocalError"
  | some n =>
    let n2 := n + 1
    if 5 < n2 then .ok (0, true) else .ok (n2, false)

/-- The value of the `error_count` local when the ingestion loop of
`_receive_data` begins: `start_time` and `packet_count` are assigned before
the loop, `error_count` never is. -/
def initial_error_count : Option ℕ := none

/-! ## Concrete fixtures and claim-side descriptions -/

/-- A payload with exactly 21 comma-separated fields whose first field does
not parse as a number. -/
def c1_payload : List Char := "abc,1,1,1,1,1,1,1,1,1,1,1,1,1,1,1,1,1,1,1,1".toList

/-- A client state as left by a successful `start()`: fresh stores with the
running flag set. -/
def running_initial : ClientState := { initial_state 1000 with is_running := true }

/-- The sample decoded from `c9_payload`, whose status fields -7 and 99 in
the raw text are clamped to 0 and 3. -/
def c9_sample : Sample :=
  { vd := 1, id_val := 2, vdc := 3, vev := 4, vpv := 5, iev := 6, ipv := 7,
    ppv := 8, pev := 9, pbattery := 10, pgrid := 11, qgrid := 12,
    power_factor := 1 / 2, frequency := 50, thd := 2,
    s1 := 0, s2 := 3, s3 := 1, s4 := 2, soc_battery := 80, soc_ev := 60 }

/-- A valid 21-field payload whose status fields are out of range (-7 and
99). -/
def c9_payload : List Char :=
  "1,2,3,4,5,6,7,8,9,10,11,12,0.5,50,2,-7,99,1,2,80,60".toList

/-- Claim-side description of windowed selection: the timestamps at least
`cutoff = latest − timeWindow`, boundary inclusive, rounded to 3 decimal
places. -/
def spec_window_times (time_data : List ℚ) (w : ℚ) : List ℚ :=
  (time_data.filter
    (fun x => decide (time_data.getLast?.getD 0 - w ≤ x))).map round3

/-- Claim-side description of windowed selection for a value series: the
values paired with a timestamp at least `cutoff = latest − timeWindow`. -/
def spec_window_values {α : Type} (time_data : List ℚ) (arr : List α) (w : ℚ) : List α :=
  ((time_data.zip arr).filter
    (fun q => decide (time_data.getLast?.getD 0 - w ≤ q.1))).map Prod.snd

/-- A store with two committed points 0.1234 s apart, for exercising the
window queries on insufficient data. -/
def c2_state : ClientState :=
  { running_initial with
    time_history := [0, 1234 / 10000]
    data_history := { Grid_Voltage := [5, 6], Grid_Power := [7, 8],
                      PhotoVoltaic_Power := [9, 10],
                      ElectricVehicle_Power := [11, 12],
                      Battery_Power := [13, 14] } }

/-! ## Helper lemmas -/

/-- Characterization of the classification outcome `sample` by the three
guards of `_process_data`. -/
theorem classify_eq_sample_iff (data : List Char) :
    classify data = PacketClass.sample ↔
      starts_with (py_strip data) param_tag = false ∧
      ¬ count_commas (py_strip data) < 5 ∧
      (split_commas (py_strip data)).length = 21 := by
  simp only [classify]
  split_ifs with h1 h2 h3 <;> simp_all

/-- On a payload classified as a sample, `_process_data` appends the
timestamp and then branches on the outcome of the numeric parse. -/
theorem process_data_sample_eq (s : ClientState) (data : List Char) (t : ℚ)
    (hc : classify data = PacketClass.sample) :
    process_data s data t =
      match parse_sample (split_commas (py_strip data)) with
      | none =>
        { s with time_history := append_bounded s.history_length s.time_history t }
      | some smp =>
        generate_waveforms
          (commit_sample
            { s with time_history := append_bounded s.history_length s.time_history t }
            smp)
          smp.vd smp.id_val t := by
  obtain ⟨h1, h2, h3⟩ := (classify_eq_sample_iff data).mp hc
  unfold process_data
  simp [h1, h2, h3]

/-- The length of a bounded append is positive when the capacity is. -/
theorem append_bounded_length_pos {α : Type} (H : ℕ) (l : List α) (x : α)
    (hH : 0 < H) : 0 < (append_bounded H l x).length := by
  simp only [append_bounded]
  split_ifs with h <;> simp [List.length_drop, List.length_append] at h ⊢
  omega

/-- The snapshot/history commit leaves the running flag untouched. -/
theorem commit_sample_is_running (s : ClientState) (smp : Sample) :
    (commit_sample s smp).is_running = s.is_running := rfl

/-- The snapshot/history commit leaves the capacity untouched. -/
theorem commit_sample_history_length (s : ClientState) (smp : Sample) :
    (commit_sample s smp).history_length = s.history_length := rfl

/-- The snapshot/history commit leaves the time history untouched. -/
theorem commit_sample_time_history (s : ClientState) (smp : Sample) :
    (commit_sample s smp).time_history = s.time_history := rfl

/-- Waveform generation leaves the running flag untouched. -/
theorem generate_waveforms_is_running (s : ClientState) (v i t : ℚ) :
    (generate_waveforms s v i t).is_running = s.is_running := rfl

/-- Waveform generation leaves the capacity untouched. -/
theorem generate_waveforms_history_length (s : ClientState) (v i t : ℚ) :
    (generate_waveforms s v i t).history_length = s.history_length := rfl

/-- Waveform generation leaves the time history untouched. -/
theorem generate_waveforms_time_history (s : ClientState) (v i t : ℚ) :
    (generate_waveforms s v i t).time_history = s.time_history := rfl

/-- Waveform generation leaves the snapshot untouched. -/
theorem generate_waveforms_latest_data (s : ClientState) (v i t : ℚ) :
    (generate_waveforms s v i t).latest_data = s.latest_data := rfl

/-- Waveform generation leaves the parameter histories untouched. -/
theorem generate_waveforms_data_history (s : ClientState) (v i t : ℚ) :
    (generate_waveforms s v i t).data_history = s.data_history := rfl

/-- A successfully parsed sample carries only clamped status codes. -/
theorem parse_sample_statuses (values : List (List Char)) (smp : Sample)
    (hp : parse_sample values = some smp) :
    (∃ z, smp.s1 = clamp_status z) ∧ (∃ z, smp.s2 = clamp_status z) ∧
    (∃ z, smp.s3 = clamp_status z) ∧ (∃ z, smp.s4 = clamp_status z) := by
  unfold parse_sample at hp
  cases hm : values.mapM py_float with
  | none => rw [hm] at hp; cases hp
  | some fs =>
    rw [hm] at hp
    injection hp with h
    exact ⟨⟨_, by rw [← h]⟩, ⟨_, by rw [← h]⟩, ⟨_, by rw [← h]⟩, ⟨_, by rw [← h]⟩⟩

/-- The clamp `max(0, min(s, 3))` always lands in [0,3]. -/
theorem clamp_status_mem (z : ℤ) : 0 ≤ clamp_status z ∧ clamp_status z ≤ 3 := by
  unfold clamp_status
  constructor
  · exact le_max_left 0 _
  · exact max_le (by norm_num) (min_le_right z 3)

/-- The last element read through `getLast?` with a default is a member of
any nonempty list. -/
theorem getLastD_mem {α : Type} (d : α) : ∀ (l : List α), l ≠ [] → l.getLast?.getD d ∈ l
  | [], h => absurd rfl h
  | [a], _ => by simp [List.getLast?]
  | a :: b :: bs, _ => by
    rw [List.getLast?_cons_cons]
    exact List.mem_cons_of_mem a (getLastD_mem d (b :: bs) (by simp))

/-- Reading back in-range indices through the optional indexer drops
nothing. -/
theorem filterMap_get_length {α : Type} (l : List α) :
    ∀ (indices : List ℕ), (∀ i ∈ indices, i < l.length) →
      (indices.filterMap (fun i => l[i]?)).length = indices.length := by
  intro indices
  induction indices with
  | nil => intro _; rfl
  | cons i is ih =>
    intro h
    have hi : i < l.length := h i (List.mem_cons_self i is)
    have hrest := ih (fun j hj => h j (List.mem_cons_of_mem i hj))
    rw [List.filterMap_cons, List.getElem?_eq_getElem hi]
    show (l[i] :: List.filterMap (fun i => l[i]?) is).length = is.length + 1
    rw [List.length_cons, hrest]

/-- Filtering the index range by a predicate on the indexed element and
reading the elements back is filtering the list itself. -/
theorem select_time (p : ℚ → Bool) : ∀ (l : List ℚ),
    ((List.range l.length).filter (fun i => p (l[i]?.getD 0))).filterMap
        (fun i => l[i]?)
      = l.filter p := by
  intro l
  induction l with
  | nil => rfl
  | cons a as ih =>
    show ((List.range (as.length + 1)).filter
        (fun i => p ((a :: as)[i]?.getD 0))).filterMap (fun i => (a :: as)[i]?)
      = List.filter p (a :: as)
    cases hp : p a <;>
      simp [List.range_succ_eq_map, List.filter_cons, hp,
            List.filter_map, Function.comp_def, Nat.succ_eq_add_one,
            List.filterMap_cons, List.getElem?_cons_zero, List.getElem?_cons_succ,
            List.filterMap_map, ih]

/-- Filtering the index range by a predicate on the time value and reading
an auxiliary series of the same length back is filtering the zipped pairs. -/
theorem select_series {α : Type} (p : ℚ → Bool) : ∀ (l : List ℚ) (arr : List α),
    arr.length = l.length →
    ((List.range l.length).filter (fun i => p (l[i]?.getD 0))).filterMap
        (fun i => arr[i]?)
      = ((l.zip arr).filter (fun q => p q.1)).map Prod.snd := by
  intro l
  induction l with
  | nil =>
    intro arr h
    rw [List.length_eq_zero.mp h]
    rfl
  | cons a as ih =>
    intro arr h
    cases arr with
    | nil => simp at h
    | cons b bs =>
      have hb : bs.length = as.length := by simpa using h
      show ((List.range (as.length + 1)).filter
          (fun i => p ((a :: as)[i]?.getD 0))).filterMap (fun i => (b :: bs)[i]?)
        = _
      cases hp : p a <;>
        simp [List.range_succ_eq_map, List.filter_cons, hp,
              List.filter_map, Function.comp_def, Nat.succ_eq_add_one,
              List.filterMap_cons, List.getElem?_cons_zero, List.getElem?_cons_succ,
              List.filterMap_map, List.zip_cons_cons, ih bs hb]

/-- The index selection is empty exactly when the value selection is. -/
theorem select_empty_iff (p : ℚ → Bool) (l : List ℚ) :
    (List.range l.length).filter (fun i => p (l[i]?.getD 0)) = [] ↔
      l.filter p = [] := by
  constructor
  · intro h
    have hsel := select_time p l
    rw [h] at hsel
    exact hsel.symm
  · intro h
    have hsel := select_time p l
    rw [h] at hsel
    have hbound : ∀ i ∈ (List.range l.length).filter (fun i => p (l[i]?.getD 0)),
        i < l.length := by
      intro i hi
      exact List.mem_range.mp (List.mem_filter.mp hi).1
    have hlen := filterMap_get_length l _ hbound
    rw [hsel] at hlen
    exact List.length_eq_zero.mp hlen.symm

/-- With monotone timestamps, a nonnegative window and insufficient data
(single point or span below the window), the cutoff test selects every
point. -/
theorem window_selects_all (l : List ℚ) (w : ℚ) (hw : 0 ≤ w) (hne : l ≠ [])
    (hsort : l.Sorted (fun a b => a ≤ b))
    (hins : l.length < 2 ∨ l.getLast?.getD 0 - l.headD 0 < w) :
    l.filter (fun x => decide (l.getLast?.getD 0 - w ≤ x)) = l := by
  rw [List.filter_eq_self]
  intro x hx
  rw [decide_eq_true_eq]
  cases l with
  | nil => exact absurd rfl hne
  | cons t ts =>
    have hxt : t ≤ x := by
      rcases List.mem_cons.mp hx with h | h
      · exact h ▸ le_refl t
      · exact (List.sorted_cons.mp hsort).1 x h
    rcases hins with hlen | hspan
    · have hts : ts = [] := by
        cases ts with
        | nil => rfl
        | cons u us =>
          rw [List.length_cons, List.length_cons] at hlen
          omega
      subst hts
      have hxeq : x = t := by simpa using hx
      have hlast : ([t] : List ℚ).getLast?.getD 0 = t := rfl
      rw [hxeq, hlast]
      linarith
    · rw [show (t :: ts).headD 0 = t from rfl] at hspan
      linarith

/-- Lists mapped by pointwise-equal functions are equal. -/
theorem map_congr_mem {α β : Type} (l : List α) (f g : α → β)
    (h : ∀ a ∈ l, f a = g a) : l.map f = l.map g := by
  induction l with
  | nil => rfl
  | cons a as ih =>
    rw [List.map_cons, List.map_cons, h a (List.mem_cons_self a as),
      ih (fun x hx => h x (List.mem_cons_of_mem a hx))]

/-- Full characterization of `filter_by_time_window` on well-formed inputs
(nonempty time data, every series as long as the time data): a nonempty
selection is returned with rounded timestamps, an empty selection collapses
to the single latest point of every series. -/
theorem filter_window_spec {α : Type} (time_data : List ℚ)
    (series : List (List α)) (w : ℚ)
    (h1 : time_data ≠ [])
    (h2 : ∀ arr ∈ series, arr.length = time_data.length) :
    (time_data.filter (fun x => decide (time_data.getLast?.getD 0 - w ≤ x)) ≠ [] →
      filter_by_time_window time_data series w =
        (spec_window_times time_data w,
         series.map (fun arr => spec_window_values time_data arr w))) ∧
    (time_data.filter (fun x => decide (time_data.getLast?.getD 0 - w ≤ x)) = [] →
      filter_by_time_window time_data series w =
        ([time_data.getLast?.getD 0],
         series.map (fun arr => (arr.getLast?.map (fun x => [x])).getD []))) := by
  have hlen0 : ¬ time_data.length = 0 := fun h => h1 (List.length_eq_zero.mp h)
  have hst := select_time
    (fun x => decide (time_data.getLast?.getD 0 - w ≤ x)) time_data
  have hempty_iff := select_empty_iff
    (fun x => decide (time_data.getLast?.getD 0 - w ≤ x)) time_data
  constructor
  · intro hsel
    have hidx_ne : ¬ (List.range time_data.length).filter
        (fun i => decide (time_data.getLast?.getD 0 - w ≤ time_data[i]?.getD 0)) = [] :=
      fun h => hsel (hempty_iff.mp h)
    have hidx_len : ¬ ((List.range time_data.length).filter
        (fun i => decide (time_data.getLast?.getD 0 - w ≤ time_data[i]?.getD 0))).length = 0 :=
      fun h => hidx_ne (List.length_eq_zero.mp h)
    have hdef : (series.any fun arr =>
        decide (0 < ((List.range time_data.length).filter
          (fun i => decide (time_data.getLast?.getD 0 - w ≤ time_data[i]?.getD 0))).length) &&
        decide (arr.length ≤ ((List.range time_data.length).filter
          (fun i => decide (time_data.getLast?.getD 0 - w ≤ time_data[i]?.getD 0))).getLast?.getD 0)) = false := by
      rw [List.any_eq_false]
      intro arr harr
      rw [Bool.and_eq_true, not_and]
      intro _
      rw [decide_eq_true_eq, not_le, h2 arr harr]
      have hmem := getLastD_mem 0 _ hidx_ne
      exact List.mem_range.mp (List.mem_filter.mp hmem).1
    simp only [filter_by_time_window, if_neg hlen0, hdef, Bool.false_eq_true,
      if_false, if_neg hidx_len, Prod.mk.injEq, spec_window_times,
      spec_window_values]
    constructor
    · rw [hst]
    · exact map_congr_mem series _ _
        (fun arr harr => select_series
          (fun x => decide (time_data.getLast?.getD 0 - w ≤ x))
          time_data arr (h2 arr harr))
  · intro hsel
    have hidx : (List.range time_data.length).filter
        (fun i => decide (time_data.getLast?.getD 0 - w ≤ time_data[i]?.getD 0)) = [] :=
      hempty_iff.mpr hsel
    have hempty : (series.any fun arr => arr.isEmpty) = false := by
      rw [List.any_eq_false]
      intro arr harr
      have hlena := h2 arr harr
      cases arr with
      | nil =>
        rw [List.length_nil] at hlena
        exact absurd hlena.symm hlen0
      | cons b bs => simp
    have hdef2 : (series.any fun arr =>
        decide (0 < ((List.range time_data.length).filter
          (fun i => decide (time_data.getLast?.getD 0 - w ≤ time_data[i]?.getD 0))).length) &&
        decide (arr.length ≤ ((List.range time_data.length).filter
          (fun i => decide (time_data.getLast?.getD 0 - w ≤ time_data[i]?.getD 0))).getLast?.getD 0)) = false := by
      rw [List.any_eq_false]
      intro arr _
      rw [hidx]
      simp
    have hlenidx : ((List.range time_data.length).filter
        (fun i => decide (time_data.getLast?.getD 0 - w ≤ time_data[i]?.getD 0))).length = 0 := by
      rw [hidx]
      rfl
    simp only [filter_by_time_window, if_neg hlen0, hdef2, Bool.false_eq_true,
      if_false, hlenidx, eq_self_iff_true, if_true, hempty]
    have hany0 : (series.any fun arr =>
        decide (0 < 0) &&
        decide (arr.length ≤ ((List.range time_data.length).filter
          (fun i => decide (time_data.getLast?.getD 0 - w ≤ time_data[i]?.getD 0))).getLast?.getD 0)) = false := by
      rw [List.any_eq_false]
      intro arr _
      simp
    rw [hany0]
    simp

/-! ## Claims -/

/-- C1.  The spec demands an all-or-nothing commit per datagram: a payload
with exactly 21 comma-separated fields in which some field fails numeric
parsing must leave all sequences unchanged.  The code instead appends the
timestamp to `time_history` as soon as classification passes and only then
attempts the numeric parse, so the parse failure leaves a partial commit:
processing `"abc,1,...,1"` (21 fields, field 0 non-numeric) from the fresh
state grows `TimeHistory` to length 1 while every parameter history and
every waveform phase stays empty. -/
theorem C1_parse_failure_is_partial_commit :
    classify c1_payload = PacketClass.sample ∧
    parse_sample (split_commas (py_strip c1_payload)) = none ∧
    (process_data (initial_state 1000) c1_payload 1).time_history.length = 1 ∧
    (process_data (initial_state 1000) c1_payload 1).data_history.Grid_Voltage.length = 0 ∧
    (process_data (initial_state 1000) c1_payload 1).data_history.Grid_Current.length = 0 ∧
    (process_data (initial_state 1000) c1_payload 1).data_history.Frequency.length = 0 ∧
    (process_data (initial_state 1000) c1_payload 1).data_history.Power_Factor.length = 0 ∧
    (process_data (initial_state 1000) c1_payload 1).waveform_Grid_Voltage.phaseA.length = 0 ∧
    (process_data (initial_state 1000) c1_payload 1).waveform_Grid_Current.phaseA.length = 0 ∧
    (process_data (initial_state 1000) c1_payload 1).latest_data = (initial_state 1000).latest_data :=
  of_decide_eq_true (by with_unfolding_all rfl)

/-- C4.  The claim says the very first socket-level receive failure is
counted and the loop continues.  In the code, `error_count += 1` inside the
`except` branch reads a local that was never assigned, so the first
transport error raises `UnboundLocalError` (terminating the ingestion
thread); only a counter that has somehow been initialized would behave as
the claim describes, with reconnect-and-reset above 5. -/
theorem C4_first_transport_error_raises :
    receive_error_branch initial_error_count = Except.error "UnboundLocalError" ∧
    (∀ n : ℕ, receive_error_branch (some n) =
      if 5 < n + 1 then Except.ok (0, true) else Except.ok (n + 1, false)) := by
  constructor
  · rfl
  · intro n
    rfl

/-- C5.  The claim says a nonzero configured listen port is the port the
socket is bound to.  The constructor ignores its `listen_port` argument and
stores 0, so `start()` and `reconnect()` always bind to an OS-assigned
port: configuring port 9000 still binds port 0. -/
theorem C5_configured_listen_port_ignored :
    start_bind_port 9000 = 0 ∧ (9000 : ℕ) ≠ 0 ∧
    (∀ p : ℕ, start_bind_port p = 0) := by
  refine ⟨rfl, by norm_num, fun p => rfl⟩

/-- C6.  Payloads classified as handshake echoes (trimmed text starting
with the literal tag), reference responses (fewer than 5 commas) or
malformed samples (field count different from 21) leave the entire client
state — time history, parameter histories, waveform phases and snapshot —
unchanged, and the three classes are assigned in exactly that order of
tests. -/
theorem C6_rejected_payloads_leave_state_unchanged (s : ClientState)
    (data : List Char) (t : ℚ)
    (h : classify data ≠ PacketClass.sample) :
    process_data s data t = s ∧
    (classify data = PacketClass.handshakeEcho ↔
      starts_with (py_strip data) param_tag = true) ∧
    (classify data = PacketClass.referenceResponse ↔
      starts_with (py_strip data) param_tag = false ∧
        count_commas (py_strip data) < 5) ∧
    (classify data = PacketClass.malformed ↔
      starts_with (py_strip data) param_tag = false ∧
        ¬ count_commas (py_strip data) < 5 ∧
        (split_commas (py_strip data)).length ≠ 21) := by
  refine ⟨?_, ?_, ?_, ?_⟩
  · simp only [process_data]
    split_ifs with h1 h2 h3
    · rfl
    · rfl
    · rfl
    · exact absurd ((classify_eq_sample_iff data).mpr
        ⟨by simpa using h1, h2, by simpa using h3⟩) h
  · simp only [classify]
    split_ifs with h1 h2 h3 <;> simp_all
  · simp only [classify]
    split_ifs with h1 h2 h3 <;> simp_all
  · simp only [classify]
    split_ifs with h1 h2 h3 <;> simp_all

/-- C6 witness: a handshake echo, a reference response and a malformed
payload each leave the fresh client state exactly as it was. -/
theorem C6_witness :
    process_data (initial_state 1000) ("PARAM foo".toList) 0 = initial_state 1000 ∧
    process_data (initial_state 1000) ("1.0,2.0".toList) 0 = initial_state 1000 ∧
    process_data (initial_state 1000) ("1,2,3,4,5,6,7".toList) 0 = initial_state 1000 :=
  ⟨(C6_rejected_payloads_leave_state_unchanged (initial_state 1000)
      ("PARAM foo".toList) 0 (by decide)).1,
   (C6_rejected_payloads_leave_state_unchanged (initial_state 1000)
      ("1.0,2.0".toList) 0 (by decide)).1,
   (C6_rejected_payloads_leave_state_unchanged (initial_state 1000)
      ("1,2,3,4,5,6,7".toList) 0 (by decide)).1⟩

/-- C3 counterexample.  The claim says `is_connected()` is false whenever no
payload has ever passed both classification and full numeric parsing.  After
processing one payload that passes classification but fails the numeric
parse, no sample has been committed (every parameter history is still
empty, the parse returned a failure), yet `is_connected` reports true,
because the timestamp was appended before parsing. -/
theorem C3_counterexample :
    classify c1_payload = PacketClass.sample ∧
    parse_sample (split_commas (py_strip c1_payload)) = none ∧
    (process_data running_initial c1_payload 1).data_history.Grid_Voltage = [] ∧
    (process_data running_initial c1_payload 1).data_history.EV_SoC = [] ∧
    (process_data running_initial c1_payload 1).latest_data = running_initial.latest_data ∧
    is_connected (process_data running_initial c1_payload 1) = true :=
  of_decide_eq_true (by with_unfolding_all rfl)

/-- C3 amended.  `is_connected()` returns true iff the transport is running
and the time history is nonempty; since `_process_data` appends the
timestamp as soon as classification passes — before numeric parsing — any
classification-passing payload (even one whose numeric parse fails) makes
`is_connected` true from then on, with the running flag untouched. -/
theorem C3_is_connected_amended (s : ClientState) (data : List Char) (t : ℚ)
    (hH : 0 < s.history_length) (hc : classify data = PacketClass.sample) :
    (is_connected s = true ↔ s.is_running = true ∧ 0 < s.time_history.length) ∧
    (process_data s data t).is_running = s.is_running ∧
    0 < (process_data s data t).time_history.length := by
  refine ⟨by simp [is_connected], ?_, ?_⟩
  · rw [process_data_sample_eq s data t hc]
    cases parse_sample (split_commas (py_strip data)) with
    | none => rfl
    | some smp => rw [generate_waveforms_is_running, commit_sample_is_running]
  · rw [process_data_sample_eq s data t hc]
    cases parse_sample (split_commas (py_strip data)) with
    | none => exact append_bounded_length_pos _ _ _ hH
    | some smp =>
      rw [generate_waveforms_time_history, commit_sample_time_history]
      exact append_bounded_length_pos _ _ _ hH

/-- C3 witness: the running fresh client, fed the classification-passing
payload `c1_payload`, ends up connected with its running flag intact. -/
theorem C3_witness :
    (is_connected running_initial = true ↔
      running_initial.is_running = true ∧ 0 < running_initial.time_history.length) ∧
    (process_data running_initial c1_payload 1).is_running = running_initial.is_running ∧
    0 < (process_data running_initial c1_payload 1).time_history.length :=
  C3_is_connected_amended running_initial c1_payload 1 (by decide) (by decide)

/-- C9.  An accepted sample stores exactly the four clamped status codes in
the snapshot, each lying in [0,3] whatever integers the payload carried;
out-of-range values are clamped rather than causing rejection — the record
still commits (shown on the grid-voltage history). -/
theorem C9_statuses_clamped (s : ClientState) (data : List Char) (t : ℚ)
    (smp : Sample)
    (hc : classify data = PacketClass.sample)
    (hp : parse_sample (split_commas (py_strip data)) = some smp) :
    (process_data s data t).latest_data.S1_Status = some smp.s1 ∧
    (process_data s data t).latest_data.S2_Status = some smp.s2 ∧
    (process_data s data t).latest_data.S3_Status = some smp.s3 ∧
    (process_data s data t).latest_data.S4_Status = some smp.s4 ∧
    (0 ≤ smp.s1 ∧ smp.s1 ≤ 3) ∧ (0 ≤ smp.s2 ∧ smp.s2 ≤ 3) ∧
    (0 ≤ smp.s3 ∧ smp.s3 ≤ 3) ∧ (0 ≤ smp.s4 ∧ smp.s4 ≤ 3) ∧
    (process_data s data t).data_history.Grid_Voltage
      = append_bounded s.history_length s.data_history.Grid_Voltage smp.vd := by
  obtain ⟨⟨z1, hz1⟩, ⟨z2, hz2⟩, ⟨z3, hz3⟩, ⟨z4, hz4⟩⟩ :=
    parse_sample_statuses _ _ hp
  rw [process_data_sample_eq s data t hc]
  simp only [hp]
  rw [generate_waveforms_latest_data, generate_waveforms_data_history]
  refine ⟨rfl, rfl, rfl, rfl, ?_, ?_, ?_, ?_, rfl⟩
  · rw [hz1]; exact clamp_status_mem z1
  · rw [hz2]; exact clamp_status_mem z2
  · rw [hz3]; exact clamp_status_mem z3
  · rw [hz4]; exact clamp_status_mem z4

/-- C9 witness: processing `c9_payload` (statuses -7, 99, 1, 2) stores the
clamped statuses 0, 3, 1, 2, all within [0,3], and the record is committed
rather than rejected. -/
theorem C9_witness :
    (process_data running_initial c9_payload 1).latest_data.S1_Status = some c9_sample.s1 ∧
    (process_data running_initial c9_payload 1).latest_data.S2_Status = some c9_sample.s2 ∧
    (process_data running_initial c9_payload 1).latest_data.S3_Status = some c9_sample.s3 ∧
    (process_data running_initial c9_payload 1).latest_data.S4_Status = some c9_sample.s4 ∧
    (0 ≤ c9_sample.s1 ∧ c9_sample.s1 ≤ 3) ∧ (0 ≤ c9_sample.s2 ∧ c9_sample.s2 ≤ 3) ∧
    (0 ≤ c9_sample.s3 ∧ c9_sample.s3 ≤ 3) ∧ (0 ≤ c9_sample.s4 ∧ c9_sample.s4 ≤ 3) ∧
    (process_data running_initial c9_payload 1).data_history.Grid_Voltage
      = append_bounded running_initial.history_length
          running_initial.data_history.Grid_Voltage c9_sample.vd :=
  C9_statuses_clamped running_initial c9_payload 1 c9_sample
    (by decide) (of_decide_eq_true (by with_unfolding_all rfl))

/-- C10.  With an empty time history, `get_parameter_history` and
`get_waveform_data` return empty sequences for every requested series and
any combination of point-count and window arguments, while `get_power_data`
returns a single zero-valued point for the time axis and for each of the
four power series. -/
theorem C10_empty_history_fallbacks (s : ClientState) (param wkind : String)
    (np : Option ℕ) (tw : Option ℚ) (h : s.time_history = []) :
    get_parameter_history s param np tw = ([], []) ∧
    get_waveform_data s wkind np tw = ([], [], [], []) ∧
    get_power_data s np tw = ([0], [0], [0], [0], [0]) := by
  refine ⟨?_, ?_, ?_⟩
  · unfold get_parameter_history
    cases data_history_lookup s.data_history param with
    | none => rfl
    | some pd => simp [h]
  · unfold get_waveform_data
    cases waveform_lookup s wkind with
    | none => rfl
    | some ph => simp [h]
  · unfold get_power_data
    simp [h]

/-- C7.  The six values appended per accepted sample are
`V·√2·sin(2π·f·t + {0, −2π/3, +2π/3})` for the voltage phases and
`I·√2·sin(2π·f·t − arccos(clamp(pf,−1,1)) + {0, −2π/3, +2π/3})` for the
current phases, where `f` and `pf` are the sample's frequency and power
factor (committed to the snapshot just before synthesis); in particular at
`t = 0`, `pf = 1`, `V = 230` phase A voltage is 0 and phases B/C equal
`230·√2·sin(∓2π/3)`. -/
theorem C7_waveform_synthesis :
    (∀ f pf V I t : ℚ,
      (generate_waveform_values f pf V I t).voltage_a =
        (V : ℝ) * Real.sqrt 2 * Real.sin (2 * Real.pi * (f : ℝ) * (t : ℝ) + 0) ∧
      (generate_waveform_values f pf V I t).voltage_b =
        (V : ℝ) * Real.sqrt 2 *
          Real.sin (2 * Real.pi * (f : ℝ) * (t : ℝ) + -(2 * Real.pi / 3)) ∧
      (generate_waveform_values f pf V I t).voltage_c =
        (V : ℝ) * Real.sqrt 2 *
          Real.sin (2 * Real.pi * (f : ℝ) * (t : ℝ) + 2 * Real.pi / 3) ∧
      (generate_waveform_values f pf V I t).current_a =
        (I : ℝ) * Real.sqrt 2 *
          Real.sin (2 * Real.pi * (f : ℝ) * (t : ℝ) -
            Real.arccos ((max (-1) (min 1 pf) : ℚ) : ℝ) + 0) ∧
      (generate_waveform_values f pf V I t).current_b =
        (I : ℝ) * Real.sqrt 2 *
          Real.sin (2 * Real.pi * (f : ℝ) * (t : ℝ) -
            Real.arccos ((max (-1) (min 1 pf) : ℚ) : ℝ) + -(2 * Real.pi / 3)) ∧
      (generate_waveform_values f pf V I t).current_c =
        (I : ℝ) * Real.sqrt 2 *
          Real.sin (2 * Real.pi * (f : ℝ) * (t : ℝ) -
            Real.arccos ((max (-1) (min 1 pf) : ℚ) : ℝ) + 2 * Real.pi / 3)) ∧
    (∀ (s : ClientState) (smp : Sample) (t : ℚ),
      (generate_waveforms (commit_sample s smp) smp.vd smp.id_val t).waveform_Grid_Voltage.phaseA
        = append_bounded s.history_length s.waveform_Grid_Voltage.phaseA
            (generate_waveform_values smp.frequency smp.power_factor smp.vd smp.id_val t).voltage_a ∧
      (generate_waveforms (commit_sample s smp) smp.vd smp.id_val t).waveform_Grid_Voltage.phaseB
        = append_bounded s.history_length s.waveform_Grid_Voltage.phaseB
            (generate_waveform_values smp.frequency smp.power_factor smp.vd smp.id_val t).voltage_b ∧
      (generate_waveforms (commit_sample s smp) smp.vd smp.id_val t).waveform_Grid_Voltage.phaseC
        = append_bounded s.history_length s.waveform_Grid_Voltage.phaseC
            (generate_waveform_values smp.frequency smp.power_factor smp.vd smp.id_val t).voltage_c ∧
      (generate_waveforms (commit_sample s smp) smp.vd smp.id_val t).waveform_Grid_Current.phaseA
        = append_bounded s.history_length s.waveform_Grid_Current.phaseA
            (generate_waveform_values smp.frequency smp.power_factor smp.vd smp.id_val t).current_a ∧
      (generate_waveforms (commit_sample s smp) smp.vd smp.id_val t).waveform_Grid_Current.phaseB
        = append_bounded s.history_length s.waveform_Grid_Current.phaseB
            (generate_waveform_values smp.frequency smp.power_factor smp.vd smp.id_val t).current_b ∧
      (generate_waveforms (commit_sample s smp) smp.vd smp.id_val t).waveform_Grid_Current.phaseC
        = append_bounded s.history_length s.waveform_Grid_Current.phaseC
            (generate_waveform_values smp.frequency smp.power_factor smp.vd smp.id_val t).current_c) ∧
    (∀ f I : ℚ,
      (generate_waveform_values f 1 230 I 0).voltage_a = 0 ∧
      (generate_waveform_values f 1 230 I 0).voltage_b =
        230 * Real.sqrt 2 * Real.sin (-(2 * Real.pi / 3)) ∧
      (generate_waveform_values f 1 230 I 0).voltage_c =
        230 * Real.sqrt 2 * Real.sin (2 * Real.pi / 3)) := by
  refine ⟨?_, ?_, ?_⟩
  · intro f pf V I t
    simp only [generate_waveform_values, phase_shift]
    refine ⟨by rw [add_zero], ?_, ?_, by rw [add_zero], ?_, ?_⟩ <;>
      (congr 1 <;> ring_nf)
  · intro s smp t
    exact ⟨rfl, rfl, rfl, rfl, rfl, rfl⟩
  · intro f I
    have hangle : 2 * Real.pi * (f : ℝ) * ((0 : ℚ) : ℝ) = 0 := by
      rw [Rat.cast_zero, mul_zero]
    simp only [generate_waveform_values, phase_shift, hangle]
    refine ⟨by rw [Real.sin_zero, mul_zero], ?_, ?_⟩ <;>
      · norm_num

/-- C8.  The window filter computes `cutoff = latest − timeWindow` and, for
well-formed inputs (nonempty time data, series as long as the time data),
returns exactly the points with timestamp ≥ cutoff — timestamps rounded to
3 decimal places, each series filtered by its point's timestamp — and
collapses to the single latest point of every series if that selection is
empty. -/
theorem C8_window_selection (time_data : List ℚ) (series : List (List ℚ))
    (w : ℚ)
    (h1 : time_data ≠ [])
    (h2 : ∀ arr ∈ series, arr.length = time_data.length) :
    (spec_window_times time_data w ≠ [] →
      filter_by_time_window time_data series w =
        (spec_window_times time_data w,
         series.map (fun arr => spec_window_values time_data arr w))) ∧
    (spec_window_times time_data w = [] →
      filter_by_time_window time_data series w =
        ([time_data.getLast?.getD 0],
         series.map (fun arr => (arr.getLast?.map (fun x => [x])).getD []))) := by
  have h := filter_window_spec time_data series w h1 h2
  have hiff : spec_window_times time_data w = [] ↔
      time_data.filter (fun x => decide (time_data.getLast?.getD 0 - w ≤ x)) = [] := by
    simp only [spec_window_times, List.map_eq_nil_iff]
  constructor
  · intro hne
    exact h.1 (fun hEq => hne (hiff.mpr hEq))
  · intro hEq
    exact h.2 (hiff.mp hEq)

/-- C8 witness: timestamps `[0, 0.5, 1, 1.5, 2]` with window 1 give cutoff
1 and select exactly the boundary-inclusive suffix `[1, 1.5, 2]` with the
matching series values. -/
theorem C8_witness :
    ([0, 1/2, 1, 3/2, 2] : List ℚ) ≠ [] ∧
    spec_window_times [0, 1/2, 1, 3/2, 2] 1 = [1, 3/2, 2] ∧
    filter_by_time_window [(0 : ℚ), 1/2, 1, 3/2, 2] [[(10 : ℚ), 20, 30, 40, 50]] 1 =
      ([1, 3/2, 2], [[30, 40, 50]]) := by
  refine ⟨by simp, of_decide_eq_true (by with_unfolding_all rfl), ?_⟩
  have h := (C8_window_selection [0, 1/2, 1, 3/2, 2] [[(10 : ℚ), 20, 30, 40, 50]] 1
      (by simp)
      (by
        intro arr harr
        rw [List.mem_singleton] at harr
        subst harr
        rfl)).1
    (of_decide_eq_true (by with_unfolding_all rfl))
  rw [h]
  exact of_decide_eq_true (by with_unfolding_all rfl)

set_option maxRecDepth 8000 in
/-- Concrete evaluation of the parameter query on `c2_state`. -/
theorem c2_parameter_history_eval :
    get_parameter_history c2_state "Grid_Voltage" none (some 1) =
      ([0, 123/1000], [5, 6]) :=
  of_decide_eq_true (by with_unfolding_all rfl)

/-- C2 counterexample.  The claim says the insufficient-data fallback
applies to `get_parameter_history` as well, returning all points with
timestamps unmodified.  With two points 0.1234 s apart and a 1 s window,
`get_parameter_history` returns the timestamps rounded to 3 decimals
(0.1234 becomes 0.123), not unmodified. -/
theorem C2_counterexample :
    c2_state.time_history = [0, 1234/10000] ∧
    get_parameter_history c2_state "Grid_Voltage" none (some 1) =
      ([0, 123/1000], [5, 6]) ∧
    (123/1000 : ℚ) ≠ 1234/10000 :=
  ⟨rfl, c2_parameter_history_eval, by norm_num⟩

/-- C2 amended.  The insufficient-data fallback (all points returned
unfiltered, timestamps untouched) applies to `get_waveform_data` and
`get_power_data` only; `get_parameter_history` always runs the window
filter when a window is requested, which under insufficient data (monotone
timestamps, nonnegative window) still selects every point but returns the
timestamps rounded to 3 decimal places. -/
theorem C2_insufficient_data_fallback (s : ClientState) (wkind param : String)
    (np : Option ℕ) (w : ℚ)
    (hne : 0 < s.time_history.length)
    (hins : s.time_history.length < 2 ∨
      s.time_history.getLast?.getD 0 - s.time_history.headD 0 < w) :
    (∀ ph, waveform_lookup s wkind = some ph →
      get_waveform_data s wkind np (some w) =
        (s.time_history, ph.phaseA, ph.phaseB, ph.phaseC)) ∧
    get_power_data s np (some w) =
      (s.time_history, s.data_history.Grid_Power, s.data_history.PhotoVoltaic_Power,
       s.data_history.ElectricVehicle_Power, s.data_history.Battery_Power) ∧
    (∀ pd, data_history_lookup s.data_history param = some pd →
      pd.length = s.time_history.length →
      0 ≤ w → s.time_history.Sorted (fun a b => a ≤ b) →
      get_parameter_history s param np (some w) =
        (s.time_history.map round3, pd)) := by
  have hne' : s.time_history ≠ [] := by
    intro h
    rw [h] at hne
    simp at hne
  refine ⟨?_, ?_, ?_⟩
  · intro ph hph
    unfold get_waveform_data
    rw [hph]
    simp only [if_pos hne, if_pos hins]
  · unfold get_power_data
    simp only [if_pos hne, if_pos hins]
  · intro pd hpd hlen hw hsort
    have hall := window_selects_all s.time_history w hw hne' hsort hins
    have hsel : s.time_history.filter
        (fun x => decide (s.time_history.getLast?.getD 0 - w ≤ x)) ≠ [] := by
      rw [hall]
      exact hne'
    have hfs := (filter_window_spec s.time_history [pd] w hne'
      (by
        intro arr harr
        rw [List.mem_singleton] at harr
        subst harr
        exact hlen)).1 hsel
    have hallmem := List.filter_eq_self.mp hall
    have hzip : (s.time_history.zip pd).filter
        (fun q => decide (s.time_history.getLast?.getD 0 - w ≤ q.1))
        = s.time_history.zip pd := by
      rw [List.filter_eq_self]
      intro q hq
      exact hallmem q.1 (List.of_mem_zip hq).1
    unfold get_parameter_history
    rw [hpd]
    have hne2 : ¬ s.time_history.length = 0 := by omega
    simp only [if_neg hne2, hfs, List.map_cons, List.map_nil, List.headD_cons,
      Prod.mk.injEq, spec_window_times, spec_window_values, hall, hzip]
    refine ⟨trivial, ?_⟩
    exact List.map_snd_zip _ _ (le_of_eq hlen)

/-- C2 witness: on the two-point store `c2_state` (span 0.1234 s, window
1 s), the waveform and power queries return everything untouched while the
parameter query returns rounded timestamps. -/
theorem C2_witness :
    0 < c2_state.time_history.length ∧
    (c2_state.time_history.length < 2 ∨
      c2_state.time_history.getLast?.getD 0 - c2_state.time_history.headD 0 < 1) ∧
    get_waveform_data c2_state "Grid_Voltage" none (some 1) =
      (c2_state.time_history, c2_state.waveform_Grid_Voltage.phaseA,
       c2_state.waveform_Grid_Voltage.phaseB, c2_state.waveform_Grid_Voltage.phaseC) ∧
    get_power_data c2_state none (some 1) =
      (c2_state.time_history, c2_state.data_history.Grid_Power,
       c2_state.data_history.PhotoVoltaic_Power,
       c2_state.data_history.ElectricVehicle_Power,
       c2_state.data_history.Battery_Power) ∧
    get_parameter_history c2_state "Grid_Voltage" none (some 1) =
      (c2_state.time_history.map round3, c2_state.data_history.Grid_Voltage) := by
  have h := C2_insufficient_data_fallback c2_state "Grid_Voltage" "Grid_Voltage" none 1
    (by decide) (of_decide_eq_true (by with_unfolding_all rfl))
  exact ⟨by decide, of_decide_eq_true (by with_unfolding_all rfl),
    h.1 _ rfl, h.2.1,
    h.2.2 _ rfl rfl (by decide) (of_decide_eq_true (by with_unfolding_all rfl))⟩

/-- C10 witness: the fresh client answers every query with the empty or
zero-point fallback. -/
theorem C10_witness :
    get_parameter_history (initial_state 1000) "Grid_Voltage" (some 5) (some 1) = ([], []) ∧
    get_waveform_data (initial_state 1000) "Grid_Current" (some 5) (some 1) = ([], [], [], []) ∧
    get_power_data (initial_state 1000) (some 5) (some 1) = ([0], [0], [0], [0], [0]) :=
  C10_empty_history_fallbacks (initial_state 1000) "Grid_Voltage" "Grid_Current"
    (some 5) (some 1) rfl

end EvCh
